import Mathlib

/-!
Verification of the gcd oracle and differential-testing harness of the
Pyomo-NB repository (`src/Chapter_1/1_Greatest_common_divisor.ipynb`).

The notebook defines

```python
def gcd(a, b, *args, **kwargs):
    while b:
        a, b = b, a % b
    return {'gcd': a}
```

and a property-based differential test

```python
@settings(max_examples=100, deadline=None)
@given(a=st.integers(min_value=1, max_value=100), b=st.integers(min_value=1, max_value=100))
def test_gcd_function(a, b, gcd_function, solver):
    gcd_standard = gcd(a, b)['gcd']
    gcd_mip_result = gcd_function(a, b, solver=solver)
    gcd_mip = gcd_mip_result['gcd']
    assert gcd_standard == gcd_mip, \
        f"Failed for gcd_ip0 with a=..., b=..., gcd_ip=..., termination message: ..."
```

where the assert message interpolates `a`, `b`, `gcd_mip` and
`gcd_mip_result['termination_message']`.

Python integers are unbounded, so they are embedded as `Int`.  Python's `%`
on integers is floor-rounding modulo, which is exactly `Int.fmod`.
-/

namespace PyomoNB

/-- A scalar Python value as it occurs in this notebook: an `int`, a `float`
(the notebook's floats are modelled by the rational value of their decimal
display) or a `str`. -/
inductive PyScalar : Type
  | int (n : Int)
  | float (q : Rat)
  | str (s : String)
  deriving DecidableEq, Repr

/-- A Python value as it occurs at the oracle/verifier interface of the
notebook: either a scalar, or a flat `dict` mapping string keys to scalars
(every dict built by the notebook's gcd functions is of this shape). -/
inductive PyVal : Type
  | scalar (v : PyScalar)
  | dict (entries : List (String × PyScalar))
  deriving DecidableEq, Repr

/-- One execution of the loop body `a, b = b, a % b` of the oracle, on the
pair of loop variables.  Python `%` on ints is floor-mod, i.e. `Int.fmod`. -/
def gcdStep (p : Int × Int) : Int × Int :=
  (p.2, Int.fmod p.1 p.2)

/-- For a negative divisor, Python's floor-mod lands in the half-open
interval `(b, 0]` (the remainder takes the sign of the divisor). -/
theorem fmod_bounds_of_neg (a b : Int) (hb : b < 0) :
    b < Int.fmod a b ∧ Int.fmod a b ≤ 0 := by
  cases b with
  | ofNat n =>
    rw [Int.ofNat_eq_natCast] at hb
    omega
  | negSucc n =>
    cases a with
    | ofNat m =>
      cases m with
      | zero =>
        rw [show ((Int.ofNat 0).fmod (Int.negSucc n)) = 0 from rfl,
            Int.negSucc_eq]
        constructor <;> omega
      | succ m =>
        rw [show ((Int.ofNat (m+1)).fmod (Int.negSucc n))
              = Int.subNatNat (m % (n+1)) n from rfl,
            Int.subNatNat_eq_coe, Int.negSucc_eq]
        have hm : m % (n+1) < n+1 := Nat.mod_lt m n.succ_pos
        omega
    | negSucc m =>
      rw [show ((Int.negSucc m).fmod (Int.negSucc n))
            = -((((m+1) % (n+1) : Nat)) : Int) from rfl,
          Int.negSucc_eq]
      have hm : (m+1) % (n+1) < n+1 := Nat.mod_lt (m+1) n.succ_pos
      omega

/-- Python's floor-mod strictly shrinks the absolute value of the second
loop variable whenever it is nonzero; this is the termination measure of the
oracle's `while` loop. -/
theorem natAbs_fmod_lt (a b : Int) (hb : b ≠ 0) :
    (Int.fmod a b).natAbs < b.natAbs := by
  rcases lt_trichotomy b 0 with h | h | h
  · have := fmod_bounds_of_neg a b h
    omega
  · exact absurd h hb
  · have h1 := Int.fmod_nonneg' a h
    have h2 := Int.fmod_lt_of_pos a h
    omega

/-- The `while b: a, b = b, a % b` loop of the oracle, returning the final
value of `a`.  It terminates for every pair of Python integers because
`|a % b| < |b|` whenever `b ≠ 0` (`natAbs_fmod_lt`). -/
def gcdLoop (a b : Int) : Int :=
  if h : b = 0 then a
  else gcdLoop b (Int.fmod a b)
  termination_by b.natAbs
  decreasing_by exact natAbs_fmod_lt a b h

/-- `def gcd(a, b, *args, **kwargs)` of the notebook: runs the Euclidean
loop on `a`, `b` and returns the dict `{'gcd': a}`.  The extra positional
arguments `args` and keyword arguments `kwargs` are accepted but never used
by the body. -/
def gcd (a b : Int) (args : List PyScalar) (kwargs : List (String × PyScalar)) :
    PyVal :=
  PyVal.dict [("gcd", PyScalar.int (gcdLoop a b))]

/-- Numeric view of a Python scalar: Python `==` compares `int` and `float`
numerically. -/
def PyScalar.toRat? : PyScalar → Option Rat
  | PyScalar.int n => some (n : Rat)
  | PyScalar.float q => some q
  | PyScalar.str _ => none

/-- Python `==` on the scalars of this development: numeric values compare
by value (so `2 == 2.0` holds), strings compare by content, and a string is
never equal to a number. -/
def pyEq (x y : PyScalar) : Bool :=
  match x.toRat?, y.toRat? with
  | some p, some q => p == q
  | _, _ => x == y

/-- `str(v)` of a scalar, as interpolated by the f-string of the assert
message. -/
def PyScalar.pyStr : PyScalar → String
  | PyScalar.int n => toString n
  | PyScalar.float q => toString q
  | PyScalar.str s => s

/-- Python subscript `v[k]`: looks the key up in a dict, raising `KeyError`
when the key is absent and `TypeError` when the value is not a dict.
Uncaught Python exceptions are the `Except.error` channel. -/
def pyIndex (v : PyVal) (k : String) : Except String PyScalar :=
  match v with
  | PyVal.scalar _ => Except.error "TypeError: value is not subscriptable"
  | PyVal.dict entries =>
    match entries.find? (fun kv => kv.1 == k) with
    | some kv => Except.ok kv.2
    | none => Except.error ("KeyError: " ++ k)

/-- Result of one run of the body of `test_gcd_function` on a fixed pair:
either every assert passed, or the assert fired and its message was built
successfully (an `AssertionError` carrying that message).  A `KeyError`
escaping while the message is built shows up on the `Except.error` channel
instead, masking the assertion failure. -/
inductive VerifyOutcome : Type
  | pass
  | assertionError (msg : String)
  deriving DecidableEq, Repr

/-- The assert's f-string
`f"Failed for gcd_ip0 with a=..., b=..., gcd_ip=..., termination message: ..."`. -/
def failMsg (a b : Int) (gcd_mip tm : PyScalar) : String :=
  "Failed for gcd_ip0 with a=" ++ toString a ++ ", b=" ++ toString b ++
    ", gcd_ip=" ++ gcd_mip.pyStr ++ ", termination message: " ++ tm.pyStr

/-- The body of `test_gcd_function(a, b, gcd_function, solver)` for one
sampled pair `(a, b)`: compute the oracle dict and read its `'gcd'` entry,
call the candidate with the forwarded `solver` keyword and read the `'gcd'`
entry of its result, compare the two with Python `==`, and on inequality
evaluate the assert message, which subscripts the candidate result at
`'termination_message'`. -/
def test_gcd_function (gcd_function : Int → Int → String → PyVal)
    (solver : String) (a b : Int) : Except String VerifyOutcome := do
  let gcd_standard ← pyIndex (gcd a b [] []) "gcd"
  let gcd_mip_result := gcd_function a b solver
  let gcd_mip ← pyIndex gcd_mip_result "gcd"
  if pyEq gcd_standard gcd_mip then
    return VerifyOutcome.pass
  else
    let tm ← pyIndex gcd_mip_result "termination_message"
    return (VerifyOutcome.assertionError (failMsg a b gcd_mip tm))

/-- The result dict that `gcd_ip1(2, 2, solver='cbc')` returned in the
notebook's recorded run, with the solver-status field left as a parameter
(the recorded run had status `'ok'`).  The recorded floats are modelled by
the rational values of their decimal displays.  The dict carries a
`'Termination Message'` key but no `'termination_message'` key. -/
def gcd_ip1_result (status : String) : PyVal :=
  PyVal.dict
    [ ("a", PyScalar.int 2)
    , ("b", PyScalar.int 2)
    , ("A", PyScalar.float (-12345679000))
    , ("B", PyScalar.float 12345679000)
    , ("gcd", PyScalar.float 0)
    , ("time", PyScalar.float 0.16663193702697754)
    , ("Status", PyScalar.str status)
    , ("Termination Condition", PyScalar.str "optimal")
    , ("Termination Message", PyScalar.str "Model was solved to optimality (subject to tolerances), and an optimal solution is available.")
    ]

/-- Whether a Python value is a bare integer (as opposed to a dict or any
other shape). -/
def PyVal.isScalarInt : PyVal → Bool
  | PyVal.scalar (PyScalar.int _) => true
  | _ => false

/-- Unfolding of the loop at `b = 0`: the `while` guard is false, the body
never runs, and the current `a` is returned. -/
theorem gcdLoop_zero (a : Int) : gcdLoop a 0 = a := by
  rw [gcdLoop]
  simp

/-- Unfolding of the loop at `b ≠ 0`: one body execution
`a, b = b, a % b`, then the loop continues. -/
theorem gcdLoop_of_ne (a b : Int) (h : b ≠ 0) :
    gcdLoop a b = gcdLoop b (Int.fmod a b) := by
  rw [gcdLoop]
  simp [h]

/-- On natural-number inputs the loop computes `Nat.gcd`. -/
theorem gcdLoop_natCast (m n : Nat) :
    gcdLoop (m : Int) (n : Int) = (Nat.gcd m n : Int) := by
  induction n using Nat.strong_induction_on generalizing m with
  | _ n ih =>
    cases n with
    | zero =>
      simpa using gcdLoop_zero (m : Int)
    | succ k =>
      have hne : ((k+1 : Nat) : Int) ≠ 0 := by
        exact_mod_cast Nat.succ_ne_zero k
      rw [gcdLoop_of_ne _ _ hne, ← Int.ofNat_fmod m (k+1),
        ih (m % (k+1)) (Nat.mod_lt m k.succ_pos)]
      congr 1
      rw [Nat.gcd_comm m (k+1), Nat.gcd_rec (k+1) m, Nat.gcd_comm]

/-- On nonnegative inputs the loop computes the mathematical gcd. -/
theorem gcdLoop_eq_gcd (a b : Int) (ha : 0 ≤ a) (hb : 0 ≤ b) :
    gcdLoop a b = (Int.gcd a b : Int) := by
  lift a to Nat using ha with m
  lift b to Nat using hb with n
  rw [gcdLoop_natCast, Int.gcd_natCast_natCast]

/-- The oracle's dict at any concrete gcd value, for rewriting the loop away
before evaluating the verifier. -/
theorem gcd_dict_eq (a b g : Int) (args : List PyScalar)
    (kwargs : List (String × PyScalar)) (h : gcdLoop a b = g) :
    gcd a b args kwargs = PyVal.dict [("gcd", PyScalar.int g)] := by
  unfold gcd
  rw [h]

/-- For any solver-status text, running the verifier body at `(2, 2)` on the
recorded `gcd_ip1` result dict ends in an uncaught
`KeyError: termination_message` raised while the assert message is built. -/
theorem test_gcd_ip1_keyError (status : String) :
    test_gcd_function (fun _ _ _ => gcd_ip1_result status) "cbc" 2 2
      = Except.error "KeyError: termination_message" := by
  have h22 : gcdLoop 2 2 = 2 := by
    rw [gcdLoop_eq_gcd 2 2 (by omega) (by omega)]
    decide
  simp only [test_gcd_function]
  rw [gcd_dict_eq 2 2 2 [] [] h22]
  rfl

/- ======================  Claim theorems  ====================== -/

/-- C1: for every pair of integers `a`, `b` with `1 ≤ a, b ≤ 100`, the
oracle's gcd value divides both `a` and `b` exactly, and no integer greater
than it divides both `a` and `b` (the result is the greatest common
divisor). -/
theorem gcd_divides_both_and_is_maximal (a b : Int)
    (ha1 : 1 ≤ a) (ha2 : a ≤ 100) (hb1 : 1 ≤ b) (hb2 : b ≤ 100) :
    gcdLoop a b ∣ a ∧ gcdLoop a b ∣ b ∧
      ∀ d : Int, gcdLoop a b < d → ¬(d ∣ a ∧ d ∣ b) := by
  have hg : gcdLoop a b = (Int.gcd a b : Int) :=
    gcdLoop_eq_gcd a b (by omega) (by omega)
  rw [hg]
  refine ⟨Int.gcd_dvd_left, Int.gcd_dvd_right, ?_⟩
  rintro d hd ⟨hda, hdb⟩
  have hdg : d ∣ (Int.gcd a b : Int) := Int.dvd_gcd hda hdb
  have hpos : (0 : Int) < (Int.gcd a b : Int) := by
    have h0 : 0 < Int.gcd a b := Int.gcd_pos_of_ne_zero_left b (by omega)
    exact_mod_cast h0
  have := Int.le_of_dvd hpos hdg
  omega

/-- Witness for C1 at `(a, b) = (48, 18)`: the oracle's value divides both,
and `7` (an integer greater than it) does not divide both. -/
theorem gcd_divides_both_and_is_maximal_witness :
    gcdLoop 48 18 ∣ 48 ∧ gcdLoop 48 18 ∣ 18 ∧ ¬((7 : Int) ∣ 48 ∧ (7 : Int) ∣ 18) := by
  obtain ⟨h1, h2, h3⟩ :=
    gcd_divides_both_and_is_maximal 48 18 (by norm_num) (by norm_num)
      (by norm_num) (by norm_num)
  refine ⟨h1, h2, h3 7 ?_⟩
  rw [gcdLoop_eq_gcd 48 18 (by omega) (by omega)]
  decide

/-- C2: the claim says the verifier substitutes the sentinel
`"not available"` when the candidate result lacks the
`'termination_message'` field; the code instead subscripts the missing key
directly, so at the recorded failing input `(2, 2)` with the `gcd_ip1`
result dict the run ends in an uncaught `KeyError` that masks the
assertion failure. -/
theorem diagnostic_raises_keyError_not_sentinel :
    test_gcd_function (fun _ _ _ => gcd_ip1_result "ok") "cbc" 2 2
      = Except.error "KeyError: termination_message" :=
  test_gcd_ip1_keyError "ok"

/-- C3: the claim says a candidate that fails to produce a definite gcd
value is reported as a failure kind distinct from a numeric mismatch and is
never coerced into a numeric gcd such as `0`; the code instead reads the
degenerate `'gcd': 0.0` entry of the recorded `gcd_ip1` result at `(2, 2)`
and compares it numerically, and its outcome is identical whatever the
solver-status field says (`'ok'` or `'error'`), so no distinct failure kind
exists. -/
theorem candidate_failure_coerced_to_numeric_comparison :
    pyIndex (gcd_ip1_result "ok") "gcd" = Except.ok (PyScalar.float 0) ∧
      test_gcd_function (fun _ _ _ => gcd_ip1_result "ok") "cbc" 2 2
        = test_gcd_function (fun _ _ _ => gcd_ip1_result "error") "cbc" 2 2 ∧
      test_gcd_function (fun _ _ _ => gcd_ip1_result "infeasible") "cbc" 2 2
        = Except.error "KeyError: termination_message" := by
  refine ⟨rfl, ?_, test_gcd_ip1_keyError "infeasible"⟩
  rw [test_gcd_ip1_keyError "ok", test_gcd_ip1_keyError "error"]

/-- C4 counterexample: at `(13, 19)` the oracle's result is not a bare
integer (it is the dict `{'gcd': 1}`), contradicting the claimed
`gcd(a, b) -> PositiveInt` shape. -/
theorem gcd_result_is_not_bare_int :
    PyVal.isScalarInt (gcd 13 19 [] []) = false := rfl

/-- C4 amended: for every pair of positive integers `a`, `b`, the oracle
returns the one-entry dict `{'gcd': g}` whose entry under the key `'gcd'`
is the positive integer `gcd(a, b)`. -/
theorem gcd_returns_singleton_dict (a b : Int) (ha : 0 < a) (hb : 0 < b) :
    gcd a b [] [] = PyVal.dict [("gcd", PyScalar.int (Int.gcd a b))] ∧
      pyIndex (gcd a b [] []) "gcd"
        = Except.ok (PyScalar.int (Int.gcd a b)) ∧
      (0 : Int) < (Int.gcd a b : Int) := by
  have hg : gcdLoop a b = (Int.gcd a b : Int) :=
    gcdLoop_eq_gcd a b ha.le hb.le
  have hd := gcd_dict_eq a b (Int.gcd a b) [] [] hg
  refine ⟨hd, ?_, ?_⟩
  · rw [hd]
    rfl
  · have h0 : 0 < Int.gcd a b := Int.gcd_pos_of_ne_zero_left b ha.ne'
    exact_mod_cast h0

/-- Witness for C4's amended theorem at `(13, 19)`. -/
theorem gcd_returns_singleton_dict_witness :
    gcd 13 19 [] [] = PyVal.dict [("gcd", PyScalar.int (Int.gcd 13 19))] ∧
      pyIndex (gcd 13 19 [] []) "gcd"
        = Except.ok (PyScalar.int (Int.gcd 13 19)) ∧
      (0 : Int) < (Int.gcd 13 19 : Int) :=
  gcd_returns_singleton_dict 13 19 (by norm_num) (by norm_num)

/-- C5: if `b == 0` initially the loop body never executes and the result
is `{'gcd': a}` with `a` unchanged, for every input `a`. -/
theorem gcd_b_zero_returns_a (a : Int) :
    gcdLoop a 0 = a ∧ gcd a 0 [] [] = PyVal.dict [("gcd", PyScalar.int a)] :=
  ⟨gcdLoop_zero a, gcd_dict_eq a 0 a [] [] (gcdLoop_zero a)⟩

/-- C6: for positive `a`, `b` one execution of the loop body
`a, b = b, a % b` produces a new second component that is nonnegative and
strictly smaller than `b` (both as an integer and in absolute value), which
is why the iteration of `gcdLoop` terminates; the last conjunct is the
loop's one-step unfolding. -/
theorem gcd_loop_measure_decreases (a b : Int) (ha : 0 < a) (hb : 0 < b) :
    0 ≤ (gcdStep (a, b)).2 ∧ (gcdStep (a, b)).2 < b ∧
      (gcdStep (a, b)).2.natAbs < b.natAbs ∧
      gcdLoop a b = gcdLoop (gcdStep (a, b)).1 (gcdStep (a, b)).2 :=
  ⟨Int.fmod_nonneg' a hb, Int.fmod_lt_of_pos a hb,
    natAbs_fmod_lt a b hb.ne', gcdLoop_of_ne a b hb.ne'⟩

/-- Witness for C6 at `(48, 18)`. -/
theorem gcd_loop_measure_decreases_witness :
    0 ≤ (gcdStep (48, 18)).2 ∧ (gcdStep (48, 18)).2 < 18 ∧
      (gcdStep (48, 18)).2.natAbs < (18 : Int).natAbs ∧
      gcdLoop 48 18 = gcdLoop (gcdStep (48, 18)).1 (gcdStep (48, 18)).2 :=
  gcd_loop_measure_decreases 48 18 (by norm_num) (by norm_num)

/-- C7: the oracle is commutative on positive integers. -/
theorem gcd_commutative (a b : Int) (ha : 0 < a) (hb : 0 < b) :
    gcdLoop a b = gcdLoop b a := by
  rw [gcdLoop_eq_gcd a b ha.le hb.le, gcdLoop_eq_gcd b a hb.le ha.le,
    Int.gcd_comm]

/-- Witness for C7 at `(48, 18)`. -/
theorem gcd_commutative_witness : gcdLoop 48 18 = gcdLoop 18 48 :=
  gcd_commutative 48 18 (by norm_num) (by norm_num)

/-- C8: boundary identities `gcd(a, 1) == 1` and `gcd(a, a) == a` for every
integer `a ≥ 1`. -/
theorem gcd_boundary_identities (a : Int) (ha : 1 ≤ a) :
    gcdLoop a 1 = 1 ∧ gcdLoop a a = a := by
  constructor
  · rw [gcdLoop_eq_gcd a 1 (by omega) (by omega)]
    simp [Int.gcd]
  · rw [gcdLoop_eq_gcd a a (by omega) (by omega), Int.gcd_self]
    omega

/-- Witness for C8 at `a = 5`. -/
theorem gcd_boundary_identities_witness :
    gcdLoop 5 1 = 1 ∧ gcdLoop 5 5 = 5 :=
  gcd_boundary_identities 5 (by norm_num)

/-- C9: the four concrete scenarios of the oracle:
`gcd(13, 19) == 1`, `gcd(9, 27) == 9`, `gcd(2, 2) == 2`,
`gcd(48, 18) == 6`. -/
theorem gcd_concrete_scenarios :
    gcdLoop 13 19 = 1 ∧ gcdLoop 9 27 = 9 ∧ gcdLoop 2 2 = 2 ∧
      gcdLoop 48 18 = 6 := by
  refine ⟨?_, ?_, ?_, ?_⟩ <;>
    · rw [gcdLoop_eq_gcd _ _ (by omega) (by omega)]
      decide

/-- C10: the oracle accepts arbitrary extra positional and keyword
arguments and its result depends only on `a` and `b`; consequently the
oracle itself can be passed to the verifier as a candidate (receiving the
forwarded `solver='cbc'` keyword) and the differential test body passes. -/
theorem gcd_ignores_extra_arguments (a b : Int) (ha : 0 < a) (hb : 0 < b)
    (args : List PyScalar) (kwargs : List (String × PyScalar)) :
    gcd a b args kwargs = gcd a b [] [] ∧
      test_gcd_function
          (fun x y s => gcd x y [] [("solver", PyScalar.str s)]) "cbc" a b
        = Except.ok VerifyOutcome.pass := by
  refine ⟨rfl, ?_⟩
  simp only [test_gcd_function]
  rw [gcd_dict_eq a b (gcdLoop a b) [] [] rfl,
    gcd_dict_eq a b (gcdLoop a b) [] [("solver", PyScalar.str "cbc")] rfl]
  have hself : pyEq (PyScalar.int (gcdLoop a b)) (PyScalar.int (gcdLoop a b))
      = true := by
    simp [pyEq, PyScalar.toRat?]
  show (do
    let gcd_standard ← pyIndex (PyVal.dict [("gcd", PyScalar.int (gcdLoop a b))]) "gcd"
    let gcd_mip ← pyIndex (PyVal.dict [("gcd", PyScalar.int (gcdLoop a b))]) "gcd"
    if pyEq gcd_standard gcd_mip then
      return VerifyOutcome.pass
    else
      let tm ← pyIndex (PyVal.dict [("gcd", PyScalar.int (gcdLoop a b))]) "termination_message"
      return (VerifyOutcome.assertionError (failMsg a b gcd_mip tm))) =
    Except.ok VerifyOutcome.pass
  simp [pyIndex, hself, Bind.bind, Except.bind]
  rfl

/-- Witness for C10 at `(13, 19)` with an extra positional argument and the
`solver` keyword argument. -/
theorem gcd_ignores_extra_arguments_witness :
    gcd 13 19 [PyScalar.int 7] [("solver", PyScalar.str "cbc")]
        = gcd 13 19 [] [] ∧
      test_gcd_function
          (fun x y s => gcd x y [] [("solver", PyScalar.str s)]) "cbc" 13 19
        = Except.ok VerifyOutcome.pass :=
  gcd_ignores_extra_arguments 13 19 (by norm_num) (by norm_num)
    [PyScalar.int 7] [("solver", PyScalar.str "cbc")]

end PyomoNB
